import Mathlib

/-
Verification of the Apptainer/Singularity runtime lifecycle manager
(`openhands/runtime/impl/apptainer/apptainer_runtime.py`).

The Python code is shallowly embedded: Python strings are `List Char`,
Python `str` helpers (`split`, `strip`, `startswith`, `endswith`, `in`)
are re-implemented structurally below with Python semantics, fallible
paths return `Except`/flags, and the stateful lifecycle methods are
state transformers over an explicit `RuntimeState` record.  External
collaborators that are not part of this repository (the base
`ActionExecutionClient`, `shutil.which`, `os.environ`, the port-lock
library, the wall clock, the liveness probe) enter as oracle parameters.
-/

namespace Apptainer

/-- Python strings are modelled as lists of characters. -/
abbrev Str := List Char

/-- Python `s.startswith(p)`. -/
def pyStartsWith : Str → Str → Bool
  | _, [] => true
  | [], _ :: _ => false
  | a :: s, b :: p => a = b && pyStartsWith s p

/-- Python `s.endswith(p)`. -/
def pyEndsWith (s p : Str) : Bool :=
  pyStartsWith s.reverse p.reverse

/-- Python `n in s` (substring containment). -/
def pyContains : Str → Str → Bool
  | s, n =>
    if pyStartsWith s n then true
    else
      match s with
      | [] => false
      | _ :: t => pyContains t n

/-- Python `s.split(sep)` for a one-character separator. -/
def pySplit (sep : Char) : Str → List Str
  | [] => [[]]
  | a :: rest =>
    let r := pySplit sep rest
    if a = sep then [] :: r
    else
      match r with
      | h :: t => (a :: h) :: t
      | [] => [[a]]

/-- Drop leading whitespace characters. -/
def dropLeadingWs : Str → Str
  | [] => []
  | a :: rest => if a.isWhitespace then dropLeadingWs rest else a :: rest

/-- Python `s.strip()`. -/
def pyStrip (s : Str) : Str :=
  (dropLeadingWs (dropLeadingWs s).reverse).reverse

/-- Python truthiness of an optional string (`None` and `''` are falsy). -/
def truthyOpt : Option Str → Bool
  | some s => !s.isEmpty
  | none => false

/-- Python `a or b` on optional strings: `a` when truthy, else `b`. -/
def pyOrStr (a b : Option Str) : Option Str :=
  if truthyOpt a then a else b

/-- `ApptainerRuntime._normalize_image_reference`: canonicalise a
user-supplied image identifier.  `none` models Python `None`. -/
def normalize_image_reference (image : Option Str) : Str :=
  match image with
  | none => []
  | some s =>
    if s.isEmpty then []
    else if pyStartsWith s "docker://".toList || pyStartsWith s "library://".toList
        || pyStartsWith s "oras://".toList then s
    else if pyEndsWith s ".sif".toList || pyStartsWith s "/".toList
        || pyStartsWith s ".".toList then s
    else if !pyContains s "://".toList && pyContains s "/".toList then
      "docker://".toList ++ s
    else s

example : normalize_image_reference (some "user/repo:tag".toList)
    = "docker://user/repo:tag".toList := by decide

example : normalize_image_reference (some "docker://x".toList) = "docker://x".toList := by
  decide

example : normalize_image_reference (some "/abs/path/image.sif".toList)
    = "/abs/path/image.sif".toList := by decide

example : normalize_image_reference (some "ubuntu".toList) = "ubuntu".toList := by decide

/-- A held cross-process port lock (`PortLock` in the source), identified
by an id; `release()` behaviour is driven by a fault oracle. -/
abbrev PortLock := Nat

/-- The subprocess handle: whether `poll()` still returns `None`
(running) and whether a stdout pipe exists. -/
structure ProcHandle where
  running : Bool
  has_stdout : Bool
  deriving Repr, DecidableEq

/-- The mutable fields of an `ApptainerRuntime` instance that the
lifecycle methods touch. -/
structure RuntimeState where
  server_process : Option ProcHandle
  log_thread : Bool
  log_file_handle : Bool
  host_port_lock : Option PortLock
  vscode_port_lock : Option PortLock
  app_port_locks : List (Option PortLock)
  host_port : Int
  container_port : Int
  vscode_port : Option Int
  app_ports : List Int
  api_url : Str
  apptainer_executable : Str
  apptainer_image : Str
  deriving Repr, DecidableEq

/-- Fault oracle for `close()`: which of the fallible calls raise.
`terminate_wait_raises` models `wait(timeout=10)` raising
`TimeoutExpired` after `terminate()`; `kill_wait_raises` models
`wait(timeout=5)` raising after `kill()`; `release_raises` tells which
port-lock `release()` calls raise. -/
structure CloseFaults where
  terminate_wait_raises : Bool
  kill_wait_raises : Bool
  release_raises : PortLock → Bool

/-- The fault-free schedule: nothing raises. -/
def noFaults : CloseFaults :=
  { terminate_wait_raises := false, kill_wait_raises := false,
    release_raises := fun _ => false }

/-- Result of running `close()`: `ok` is false when an exception escaped,
`state` is the instance state at return/raise time, `released` lists the
port locks on which `release()` was invoked, in order. -/
structure CloseOutcome where
  ok : Bool
  state : RuntimeState
  released : List PortLock
  deriving Repr, DecidableEq

/-- The `for lock in self._app_port_locks: if lock: lock.release()` loop.
Returns whether the loop completed without raising, and the ids whose
`release()` was invoked.  A raise aborts the loop (later locks are not
attempted). -/
def releaseAppLocks (raises : PortLock → Bool) : List (Option PortLock) → Bool × List PortLock
  | [] => (true, [])
  | none :: rest => releaseAppLocks raises rest
  | some l :: rest =>
    if raises l then (false, [l])
    else
      let r := releaseAppLocks raises rest
      (r.1, l :: r.2)

/-- Third step of `_release_port_locks`: the app-lock loop followed by
`self._app_port_locks.clear()`; on a raise the `clear()` is skipped and
the list is left unchanged. -/
def releaseAppFrom (raises : PortLock → Bool) (s : RuntimeState) (acc : List PortLock) :
    Bool × RuntimeState × List PortLock :=
  let r := releaseAppLocks raises s.app_port_locks
  if r.1 then (true, { s with app_port_locks := [] }, acc ++ r.2)
  else (false, s, acc ++ r.2)

/-- Second step of `_release_port_locks`: release the vscode lock and
null the field; a raise leaves the field set and aborts the sequence. -/
def releaseVscodeFrom (raises : PortLock → Bool) (s : RuntimeState) (acc : List PortLock) :
    Bool × RuntimeState × List PortLock :=
  match s.vscode_port_lock with
  | some l =>
    if raises l then (false, s, acc ++ [l])
    else releaseAppFrom raises { s with vscode_port_lock := none } (acc ++ [l])
  | none => releaseAppFrom raises s acc

/-- `ApptainerRuntime._release_port_locks`: host lock, then vscode lock,
then the app-lock loop, strictly in sequence; the first raise aborts the
remaining releases. -/
def release_port_locks (raises : PortLock → Bool) (s : RuntimeState) :
    Bool × RuntimeState × List PortLock :=
  match s.host_port_lock with
  | some l =>
    if raises l then (false, s, [l])
    else releaseVscodeFrom raises { s with host_port_lock := none } [l]
  | none => releaseVscodeFrom raises s []

/-- Tail of `close()` after the process block: join and drop the log
thread, close and drop the log file handle (exceptions swallowed), then
`_release_port_locks`. -/
def closeLogsAndLocks (f : CloseFaults) (s : RuntimeState) : CloseOutcome :=
  let s2 := { s with log_thread := false, log_file_handle := false }
  let r := release_port_locks f.release_raises s2
  { ok := r.1, state := r.2.1, released := r.2.2 }

/-- `ApptainerRuntime.close`.  `super().close()` is external to this
repository and touches none of the fields modelled here.  The process
block terminates a still-running process (graceful `wait(10)`, on
`TimeoutExpired` a `kill()` plus `wait(5)`); if the post-kill wait
raises, the exception escapes `close()` before any lock is released.
The stdout close swallows exceptions. -/
def close (f : CloseFaults) (s : RuntimeState) : CloseOutcome :=
  match s.server_process with
  | some p =>
    if p.running && f.terminate_wait_raises && f.kill_wait_raises then
      { ok := false, state := s, released := [] }
    else closeLogsAndLocks f { s with server_process := none }
  | none => closeLogsAndLocks f s

/-- The port locks currently held by an instance, in release order. -/
def heldLocks (s : RuntimeState) : List PortLock :=
  s.host_port_lock.toList ++ s.vscode_port_lock.toList ++ s.app_port_locks.filterMap id

/-- Outcome of `_wait_until_alive`: liveness success, the
process-exited `AgentRuntimeDisconnectedError`, or the timeout
`AgentRuntimeDisconnectedError` whose `cause` records the index of the
last failed liveness check (`raise ... from last_error`; `none` models
`last_error is None`).  `fuelOut` is an artifact of fuel-bounded
recursion and is proved unreachable under a monotone clock. -/
inductive WaitOutcome
  | alive
  | procExited
  | timedOut (cause : Option Nat)
  | fuelOut
  deriving Repr, DecidableEq

/-- Observable result of `_wait_until_alive`: the outcome, how many
liveness checks (`check_if_alive` calls) ran, and the index of the
`while` iteration at which the loop returned or raised. -/
structure WaitResult where
  outcome : WaitOutcome
  checks : Nat
  exitIter : Nat
  deriving Repr, DecidableEq

/-- The `while time.time() < deadline` loop of `_wait_until_alive`.
`hasProc` is the truthiness of `self._server_process` (constant across
the loop), `pollExited i` tells whether `poll() is not None` at
iteration `i`, `aliveOk i` whether `check_if_alive()` succeeds at
iteration `i`, and `clock i` is the `time.time()` sample at the `i`-th
loop-condition check.  Inside the loop the process-exit check runs
strictly before the liveness check. -/
def waitLoop (hasProc : Bool) (pollExited aliveOk : Nat → Bool) (clock : Nat → Int)
    (deadline : Int) : Nat → Nat → Option Nat → WaitResult
  | 0, i, _ => { outcome := .fuelOut, checks := 0, exitIter := i }
  | fuel + 1, i, lastError =>
    if clock i < deadline then
      if hasProc && pollExited i then { outcome := .procExited, checks := 0, exitIter := i }
      else if aliveOk i then { outcome := .alive, checks := 1, exitIter := i }
      else
        let r := waitLoop hasProc pollExited aliveOk clock deadline fuel (i + 1) (some i)
        { outcome := r.outcome, checks := r.checks + 1, exitIter := r.exitIter }
    else { outcome := .timedOut lastError, checks := 0, exitIter := i }

/-- `ApptainerRuntime._wait_until_alive`: computes
`deadline = time.time() + timeout` from the entry sample `t0` and runs
the polling loop with `last_error = None` initially. -/
def wait_until_alive (hasProc : Bool) (pollExited aliveOk : Nat → Bool) (clock : Nat → Int)
    (t0 timeout : Int) (fuel : Nat) : WaitResult :=
  waitLoop hasProc pollExited aliveOk clock (t0 + timeout) fuel 0 none

/-- Body of the mount loop in `_build_bind_args`, applied to
`mount.split(':')`: fewer than two parts are skipped, the mode defaults
to `rw`, any mode containing `overlay` is skipped (with a warning),
otherwise the entry `host:container:mode` is produced with
`host = os.path.abspath(parts[0])`. -/
def bindOfParts (abspath : Str → Str) (parts : List Str) : Option Str :=
  match parts with
  | p0 :: p1 :: rest =>
    let host_path := abspath p0
    let mode := match rest with | m :: _ => m | [] => "rw".toList
    if pyContains mode "overlay".toList then none
    else some (host_path ++ ":".toList ++ p1 ++ ":".toList ++ mode)
  | _ => none

/-- `ApptainerRuntime._build_bind_args`: explicit `sandbox.volumes`
(comma-separated, entries stripped, empty entries dropped) take
priority; otherwise a single workspace bind when both paths are
configured; otherwise no binds.  `abspath` abstracts
`os.path.abspath`. -/
def build_bind_args (abspath : Str → Str) (volumes : Option Str)
    (workspace_mount_path workspace_mount_path_in_sandbox : Option Str) : List Str :=
  if truthyOpt volumes then
    let v := match volumes with | some v => v | none => []
    let mounts := ((pySplit ',' v).map pyStrip).filter (fun e => !e.isEmpty)
    mounts.filterMap (fun m => bindOfParts abspath (pySplit ':' m))
  else
    match workspace_mount_path, workspace_mount_path_in_sandbox with
    | some h, some c => [abspath h ++ ":".toList ++ c ++ ":".toList ++ "rw".toList]
    | _, _ => []

/-- The `env_updates` dict of `_build_apptainer_command`, in insertion
order: the listening port, the output-buffering flag, and, when
present, the vscode port and both app ports. -/
def env_updates (container_port : Int) (vscode_port : Option Int) (app_ports : List Int) :
    List (Str × Str) :=
  [("port".toList, (toString container_port).toList),
   ("PYTHONUNBUFFERED".toList, "1".toList)]
  ++ (match vscode_port with
      | some v => [("VSCODE_PORT".toList, (toString v).toList)]
      | none => [])
  ++ (match app_ports with
      | a :: b :: _ =>
        [("APP_PORT_1".toList, (toString a).toList),
         ("APP_PORT_2".toList, (toString b).toList)]
      | _ => [])

/-- `env[k] = v` on an environment modelled as a lookup function. -/
def envSet (e : Str → Option Str) (k v : Str) : Str → Option Str :=
  fun q => if q = k then some v else e q

/-- The injection loop of `_build_apptainer_command`: each update is
written under both the `APPTAINERENV_` and the `SINGULARITYENV_`
prefix. -/
def injectUpdates (e : Str → Option Str) : List (Str × Str) → (Str → Option Str)
  | [] => e
  | (k, v) :: rest =>
    injectUpdates
      (envSet (envSet e ("APPTAINERENV_".toList ++ k) v) ("SINGULARITYENV_".toList ++ k) v)
      rest

/-- The subprocess environment built by `_build_apptainer_command`:
`os.environ.copy()` (the `host_env` oracle) plus the dual-prefix
injection of every runtime parameter. -/
def build_command_env (host_env : Str → Option Str) (container_port : Int)
    (vscode_port : Option Int) (app_ports : List Int) : Str → Option Str :=
  injectUpdates host_env (env_updates container_port vscode_port app_ports)

/-- The two fatal configuration errors of construction:
`FileNotFoundError` from executable detection and `ValueError` for a
missing image reference. -/
inductive InitError
  | noExecutable
  | noImage
  deriving Repr, DecidableEq

/-- Second half of `_detect_apptainer_executable`: probe the two known
binary names in order (`apptainer`, then `singularity`); a truthy
`shutil.which` result is returned as the resolved path; otherwise
`FileNotFoundError`. -/
def detectFromKnownBinaries (which : Str → Option Str) : Except InitError Str :=
  if truthyOpt (which "apptainer".toList) then
    .ok ((which "apptainer".toList).getD [])
  else if truthyOpt (which "singularity".toList) then
    .ok ((which "singularity".toList).getD [])
  else .error .noExecutable

/-- `ApptainerRuntime._detect_apptainer_executable`: the
`APPTAINER_EXECUTABLE` override is consulted first and returned when it
is truthy and resolves via `shutil.which`; otherwise the two known
binary names are probed in order. -/
def detect_apptainer_executable (envGet which : Str → Option Str) : Except InitError Str :=
  match envGet "APPTAINER_EXECUTABLE".toList with
  | some candidate =>
    if !candidate.isEmpty && truthyOpt (which candidate) then .ok candidate
    else detectFromKnownBinaries which
  | none => detectFromKnownBinaries which

/-- The override-is-usable condition of `_detect_apptainer_executable`
(`candidate and shutil.which(candidate)`). -/
def overrideUsable (envGet which : Str → Option Str) : Bool :=
  match envGet "APPTAINER_EXECUTABLE".toList with
  | some candidate => !candidate.isEmpty && truthyOpt (which candidate)
  | none => false

/-- Construction-time inputs of `ApptainerRuntime.__init__`: the
environment, `shutil.which`, the two image config fields, the local
runtime URL, and an oracle giving the result of the `i`-th
`_allocate_port` call. -/
structure InitConfig where
  envGet : Str → Option Str
  which : Str → Option Str
  runtime_container_image : Option Str
  base_container_image : Option Str
  local_runtime_url : Str
  alloc : Nat → Int × Option PortLock

/-- `ApptainerRuntime.__init__` (the resource-acquiring part): detect
the executable, normalise the image (raising `ValueError` when empty),
then allocate host, vscode and the two app ports, with
`container_port = host_port` and
`api_url = local_runtime_url ++ ":" ++ str(container_port)`.  The
second component counts the `_allocate_port` calls performed. -/
def initRuntime (c : InitConfig) : Except InitError RuntimeState × Nat :=
  match detect_apptainer_executable c.envGet c.which with
  | .error e => (.error e, 0)
  | .ok exe =>
    let image := normalize_image_reference (pyOrStr c.runtime_container_image c.base_container_image)
    if image.isEmpty then (.error .noImage, 0)
    else
      let host := c.alloc 0
      let container_port := host.1
      let vscode := c.alloc 1
      let app1 := c.alloc 2
      let app2 := c.alloc 3
      (.ok
        { server_process := none, log_thread := false, log_file_handle := false,
          host_port_lock := host.2, vscode_port_lock := vscode.2,
          app_port_locks := [app1.2, app2.2],
          host_port := host.1, container_port := container_port,
          vscode_port := some vscode.1, app_ports := [app1.1, app2.1],
          api_url := c.local_runtime_url ++ ":".toList ++ (toString container_port).toList,
          apptainer_executable := exe, apptainer_image := image }, 4)

/-- A false boolean is not true (rewriting helper). -/
theorem eq_false_not_true {b : Bool} (h : b = false) : ¬ (b = true) := by
  intro h2; rw [h] at h2; exact Bool.false_ne_true h2

/-- C5: image-reference normalisation applies the rules in order: empty
or missing input yields the empty string; a known transport scheme
prefix (`docker://`, `library://`, `oras://`) is returned unchanged; a
`.sif` suffix or an absolute/relative path prefix is returned
unchanged; otherwise input containing `/` and no `://` gets `docker://`
prepended; anything else is returned unchanged; with the four
spec examples. -/
theorem normalize_image_reference_rules :
    (normalize_image_reference none = [] ∧ normalize_image_reference (some []) = []) ∧
    (∀ s : Str,
      (pyStartsWith s "docker://".toList || pyStartsWith s "library://".toList
        || pyStartsWith s "oras://".toList) = true →
      normalize_image_reference (some s) = s) ∧
    (∀ s : Str,
      (pyEndsWith s ".sif".toList || pyStartsWith s "/".toList
        || pyStartsWith s ".".toList) = true →
      normalize_image_reference (some s) = s) ∧
    (∀ s : Str,
      (pyStartsWith s "docker://".toList || pyStartsWith s "library://".toList
        || pyStartsWith s "oras://".toList) = false →
      (pyEndsWith s ".sif".toList || pyStartsWith s "/".toList
        || pyStartsWith s ".".toList) = false →
      pyContains s "://".toList = false → pyContains s "/".toList = true →
      normalize_image_reference (some s) = "docker://".toList ++ s) ∧
    (∀ s : Str, s ≠ [] →
      (pyStartsWith s "docker://".toList || pyStartsWith s "library://".toList
        || pyStartsWith s "oras://".toList) = false →
      (pyEndsWith s ".sif".toList || pyStartsWith s "/".toList
        || pyStartsWith s ".".toList) = false →
      (!pyContains s "://".toList && pyContains s "/".toList) = false →
      normalize_image_reference (some s) = s) ∧
    (normalize_image_reference (some "user/repo:tag".toList)
        = "docker://user/repo:tag".toList ∧
      normalize_image_reference (some "docker://x".toList) = "docker://x".toList ∧
      normalize_image_reference (some "/abs/path/image.sif".toList)
        = "/abs/path/image.sif".toList ∧
      normalize_image_reference (some "".toList) = "".toList) := by
  refine ⟨⟨by decide, by decide⟩, ?_, ?_, ?_, ?_, by decide⟩
  · intro s h
    have hne : ¬ (s.isEmpty = true) := by
      cases s with
      | nil => exfalso; revert h; decide
      | cons a t => simp [List.isEmpty]
    simp only [normalize_image_reference]
    rw [if_neg hne, if_pos h]
  · intro s h
    have hne : ¬ (s.isEmpty = true) := by
      cases s with
      | nil => exfalso; revert h; decide
      | cons a t => simp [List.isEmpty]
    simp only [normalize_image_reference]
    rw [if_neg hne]
    by_cases hb : (pyStartsWith s "docker://".toList || pyStartsWith s "library://".toList
        || pyStartsWith s "oras://".toList) = true
    · rw [if_pos hb]
    · rw [if_neg hb, if_pos h]
  · intro s hb hc hn hs
    have hne : ¬ (s.isEmpty = true) := by
      cases s with
      | nil => exfalso; revert hs; decide
      | cons a t => simp [List.isEmpty]
    simp only [normalize_image_reference]
    rw [if_neg hne, if_neg (eq_false_not_true hb), if_neg (eq_false_not_true hc),
      if_pos (show _ = true by rw [hn, hs]; rfl)]
  · intro s hnil hb hc hd
    have hne : ¬ (s.isEmpty = true) := by
      cases s with
      | nil => exact absurd rfl hnil
      | cons a t => simp [List.isEmpty]
    simp only [normalize_image_reference]
    rw [if_neg hne, if_neg (eq_false_not_true hb), if_neg (eq_false_not_true hc),
      if_neg (eq_false_not_true hd)]

/-- Witness for the hypothesis-bearing rules of
`normalize_image_reference_rules`, at concrete inputs. -/
theorem normalize_image_reference_rules_witness :
    normalize_image_reference (some "library://proj/img".toList)
        = "library://proj/img".toList ∧
    normalize_image_reference (some "./rel/img.sif".toList) = "./rel/img.sif".toList ∧
    normalize_image_reference (some "user/repo:tag".toList)
        = "docker://user/repo:tag".toList ∧
    normalize_image_reference (some "ubuntu".toList) = "ubuntu".toList :=
  ⟨normalize_image_reference_rules.2.1 _ (by decide),
   normalize_image_reference_rules.2.2.1 _ (by decide),
   normalize_image_reference_rules.2.2.2.1 _ (by decide) (by decide) (by decide) (by decide),
   normalize_image_reference_rules.2.2.2.2.1 _ (by decide) (by decide) (by decide) (by decide)⟩

/-- C10: entered with a non-positive configured timeout, the readiness
wait raises the timeout disconnected error immediately with no wrapped
cause and zero liveness checks, for every process-exit and liveness
oracle — even when the process has already exited. -/
theorem wait_nonpositive_timeout_immediate (hasProc : Bool)
    (pollExited aliveOk : Nat → Bool) (clock : Nat → Int) (t0 timeout : Int) (fuel : Nat)
    (hto : timeout ≤ 0) (hclk : t0 ≤ clock 0) (hf : 1 ≤ fuel) :
    wait_until_alive hasProc pollExited aliveOk clock t0 timeout fuel =
      { outcome := .timedOut none, checks := 0, exitIter := 0 } := by
  obtain ⟨f, rfl⟩ : ∃ f, fuel = f + 1 := ⟨fuel - 1, by omega⟩
  have h : ¬ (clock 0 < t0 + timeout) := by omega
  simp [wait_until_alive, waitLoop, h]

/-- Witness for `wait_nonpositive_timeout_immediate`: zero timeout with
an already-exited process still yields the causeless timeout error. -/
theorem wait_nonpositive_timeout_immediate_witness :
    wait_until_alive true (fun _ => true) (fun _ => true) (fun i => (i : Int)) 0 0 1 =
      { outcome := .timedOut none, checks := 0, exitIter := 0 } :=
  wait_nonpositive_timeout_immediate true (fun _ => true) (fun _ => true)
    (fun i => (i : Int)) 0 0 1 (by decide) (by decide) (by decide)

/-- A concrete wall clock that advances one time unit per loop
iteration, for witness instantiations. -/
def unitClock : Nat → Int := fun i => (i : Int)

/-- C3: entered with a positive remaining timeout, the wait performs
the process-exit check before any liveness check; with the process
already exited it fails with the process-exited disconnected error at
iteration 0, with zero liveness checks, at a clock strictly before the
deadline; and in general a process-exited failure at iteration `j`
performed liveness checks only on the iterations before `j`. -/
theorem wait_process_exit_checked_first (hasProc : Bool)
    (pollExited aliveOk : Nat → Bool) (clock : Nat → Int) (t0 timeout : Int) (fuel : Nat)
    (hp : hasProc = true) (he : pollExited 0 = true)
    (hrem : clock 0 < t0 + timeout) (hf : 1 ≤ fuel) :
    (wait_until_alive hasProc pollExited aliveOk clock t0 timeout fuel =
        { outcome := .procExited, checks := 0, exitIter := 0 } ∧
      clock (wait_until_alive hasProc pollExited aliveOk clock t0 timeout fuel).exitIter
        < t0 + timeout) ∧
    (∀ (fuel2 i : Nat) (lastError : Option Nat),
      (waitLoop hasProc pollExited aliveOk clock (t0 + timeout) fuel2 i lastError).outcome
          = .procExited →
      (waitLoop hasProc pollExited aliveOk clock (t0 + timeout) fuel2 i lastError).checks + i
        = (waitLoop hasProc pollExited aliveOk clock (t0 + timeout) fuel2 i lastError).exitIter) := by
  obtain ⟨f, rfl⟩ : ∃ f, fuel = f + 1 := ⟨fuel - 1, by omega⟩
  have hpe : (hasProc && pollExited 0) = true := by rw [hp, he]; rfl
  constructor
  · constructor
    · simp [wait_until_alive, waitLoop, hrem, hpe]
    · simp [wait_until_alive, waitLoop, hrem, hpe]
  · intro fuel2
    induction fuel2 with
    | zero =>
      intro i lastError h
      simp [waitLoop] at h
    | succ f2 ih =>
      intro i lastError h
      by_cases hc : clock i < t0 + timeout
      · by_cases hx : (hasProc && pollExited i) = true
        · simp [waitLoop, hc, hx]
        · by_cases hal : aliveOk i = true
          · simp [waitLoop, hc, hx, hal] at h
          · have h2 : (waitLoop hasProc pollExited aliveOk clock (t0 + timeout) f2 (i + 1)
                (some i)).outcome = .procExited := by
              simpa [waitLoop, hc, hx, hal] using h
            have h3 := ih (i + 1) (some i) h2
            simp [waitLoop, hc, hx, hal]
            omega
      · simp [waitLoop, hc] at h

/-- Witness for `wait_process_exit_checked_first`: a process that has
already exited fails immediately with no liveness checks. -/
theorem wait_process_exit_checked_first_witness :
    (wait_until_alive true (fun _ => true) (fun _ => false) unitClock 0 10 3 =
        { outcome := .procExited, checks := 0, exitIter := 0 } ∧
      unitClock
          (wait_until_alive true (fun _ => true) (fun _ => false)
            unitClock 0 10 3).exitIter < 0 + 10) ∧
    (∀ (fuel2 i : Nat) (lastError : Option Nat),
      (waitLoop true (fun _ => true) (fun _ => false) unitClock
          (0 + 10) fuel2 i lastError).outcome = .procExited →
      (waitLoop true (fun _ => true) (fun _ => false) unitClock
          (0 + 10) fuel2 i lastError).checks + i
        = (waitLoop true (fun _ => true) (fun _ => false) unitClock
            (0 + 10) fuel2 i lastError).exitIter) :=
  wait_process_exit_checked_first true (fun _ => true) (fun _ => false)
    unitClock 0 10 3 rfl rfl (by decide) (by decide)

/-- With no liveness success and no process exit, the polling loop runs
until the first clock sample at or past the deadline and then times
out, recording the last failed check; the clock must advance by at
least one per iteration and the fuel must exceed the remaining time. -/
theorem waitLoop_never_succeeds (hasProc : Bool) (pollExited aliveOk : Nat → Bool)
    (clock : Nat → Int) (deadline : Int)
    (hne : ∀ i, (hasProc && pollExited i) = false)
    (hal : ∀ i, aliveOk i = false)
    (hmono : ∀ i, clock i + 1 ≤ clock (i + 1)) :
    ∀ (fuel i : Nat) (lastError : Option Nat), (deadline - clock i).toNat < fuel →
      ∃ j, i ≤ j ∧ deadline ≤ clock j ∧
        waitLoop hasProc pollExited aliveOk clock deadline fuel i lastError =
          { outcome := .timedOut (if i < j then some (j - 1) else lastError),
            checks := j - i, exitIter := j } := by
  intro fuel
  induction fuel with
  | zero => intro i lastError h; exact absurd h (Nat.not_lt_zero _)
  | succ f ih =>
    intro i lastError h
    by_cases hc : clock i < deadline
    · obtain ⟨j, hij, hdl, heq⟩ := ih (i + 1) (some i) (by have := hmono i; omega)
      refine ⟨j, by omega, hdl, ?_⟩
      have hij' : i < j := by omega
      simp [waitLoop, hc, hne i, hal i, heq, hij']
      constructor
      · by_cases h2 : i + 1 < j
        · simp [h2]
        · have hj : j = i + 1 := by omega
          subst hj
          simp
      · omega
    · exact ⟨i, le_refl i, by omega, by simp [waitLoop, hc]⟩

/-- C4: with no liveness success and no process exit, the wait never
raises the timeout error before the deadline has passed (the final
clock sample is at or past `t0 + timeout`), and the timeout error wraps
the last observed liveness failure (check `j - 1` after `j` failed
checks) whenever at least one iteration ran. -/
theorem wait_timeout_not_early_wraps_last_failure (hasProc : Bool)
    (pollExited aliveOk : Nat → Bool) (clock : Nat → Int) (t0 timeout : Int) (fuel : Nat)
    (hne : ∀ i, (hasProc && pollExited i) = false)
    (hal : ∀ i, aliveOk i = false)
    (hmono : ∀ i, clock i + 1 ≤ clock (i + 1))
    (hfuel : (t0 + timeout - clock 0).toNat < fuel) :
    ∃ j, t0 + timeout ≤ clock j ∧
      wait_until_alive hasProc pollExited aliveOk clock t0 timeout fuel =
        { outcome := .timedOut (if 0 < j then some (j - 1) else none),
          checks := j, exitIter := j } ∧
      (clock 0 < t0 + timeout → 0 < j) := by
  obtain ⟨j, h0, hdl, heq⟩ :=
    waitLoop_never_succeeds hasProc pollExited aliveOk clock (t0 + timeout)
      hne hal hmono fuel 0 none hfuel
  refine ⟨j, hdl, by simpa [wait_until_alive] using heq, ?_⟩
  intro hlt
  rcases Nat.eq_zero_or_pos j with hj | hj
  · subst hj; omega
  · exact hj

/-- Witness for `wait_timeout_not_early_wraps_last_failure` with a
unit-step clock, a two-unit timeout, and a never-successful probe. -/
theorem wait_timeout_not_early_wraps_last_failure_witness :
    ∃ j, (0 : Int) + 2 ≤ unitClock j ∧
      wait_until_alive false (fun _ => false) (fun _ => false) unitClock 0 2 3 =
        { outcome := .timedOut (if 0 < j then some (j - 1) else none),
          checks := j, exitIter := j } ∧
      (unitClock 0 < (0 : Int) + 2 → 0 < j) :=
  wait_timeout_not_early_wraps_last_failure false (fun _ => false) (fun _ => false)
    unitClock 0 2 3 (fun _ => rfl) (fun _ => rfl)
    (fun i => by simp only [unitClock]; omega) (by decide)

/-- With no release fault, the app-lock loop completes and invokes
`release()` on exactly the held app locks, in order. -/
theorem releaseAppLocks_noraise (l : List (Option PortLock)) :
    releaseAppLocks (fun _ => false) l = (true, l.filterMap id) := by
  induction l with
  | nil => rfl
  | cons a rest ih =>
    cases a with
    | none => simpa [releaseAppLocks] using ih
    | some x => simp [releaseAppLocks, ih]

/-- With no release fault, `_release_port_locks` releases exactly the
held locks, in order, and clears all three lock fields. -/
theorem release_port_locks_noraise (s : RuntimeState) :
    release_port_locks (fun _ => false) s =
      (true,
        { s with host_port_lock := none, vscode_port_lock := none, app_port_locks := [] },
        heldLocks s) := by
  obtain ⟨sp, lt, lf, hl, vl, al, hp, cp, vp, ap, url, exe, img⟩ := s
  cases hl <;> cases vl <;>
    simp [release_port_locks, releaseVscodeFrom, releaseAppFrom,
      releaseAppLocks_noraise, heldLocks]

/-- C2: `close()` is idempotent in the fault-free schedule: the first
call succeeds and invokes `release()` exactly once per held lock, and a
second call leaves the state unchanged, succeeds, and releases
nothing (the released lock fields are `None` and the lock list is
cleared). -/
theorem close_idempotent (s : RuntimeState) :
    (close noFaults s).ok = true ∧
    (close noFaults s).released = heldLocks s ∧
    close noFaults (close noFaults s).state =
      { ok := true, state := (close noFaults s).state, released := [] } := by
  obtain ⟨sp, lt, lf, hl, vl, al, hp, cp, vp, ap, url, exe, img⟩ := s
  cases sp with
  | none =>
    refine ⟨?_, ?_, ?_⟩ <;>
      simp [close, noFaults, closeLogsAndLocks, release_port_locks_noraise, heldLocks]
  | some p =>
    refine ⟨?_, ?_, ?_⟩ <;>
      simp [close, noFaults, closeLogsAndLocks, release_port_locks_noraise, heldLocks]

/-- A concrete instance holding all four port locks, with a running
supervised process. -/
def crashState : RuntimeState :=
  { server_process := some { running := true, has_stdout := true },
    log_thread := true, log_file_handle := true,
    host_port_lock := some 1, vscode_port_lock := some 2,
    app_port_locks := [some 3, some 4],
    host_port := 30000, container_port := 30000,
    vscode_port := some 40000, app_ports := [50000, 55000],
    api_url := "http://localhost:30000".toList,
    apptainer_executable := "apptainer".toList,
    apptainer_image := "docker://img".toList }

/-- The fault schedule where graceful-then-forceful termination raises
(`wait(timeout=5)` raises after `kill()`). -/
def terminationFault : CloseFaults :=
  { terminate_wait_raises := true, kill_wait_raises := true,
    release_raises := fun _ => false }

/-- The fault schedule where releasing the host lock (id 1) raises. -/
def hostReleaseFault : CloseFaults :=
  { terminate_wait_raises := false, kill_wait_raises := false,
    release_raises := fun l => l == 1 }

/-- C1 counterexample: when graceful-then-forceful process termination
raises, `close()` propagates the exception before releasing any port
lock — all four held reservations (host, vscode, both app ports) leak,
refuting the claim that every held lock is still released. -/
theorem close_leaks_locks_on_termination_raise :
    (close terminationFault crashState).ok = false ∧
    (close terminationFault crashState).released = [] ∧
    heldLocks (close terminationFault crashState).state = [1, 2, 3, 4] := by
  refine ⟨rfl, rfl, rfl⟩

/-- C1 amended: on the fault-free path `close()` releases every held
port reservation and clears the lock fields; but when
graceful-then-forceful termination raises, no lock is released and the
state is unchanged; and when releasing the host lock raises, the
remaining releases are skipped (they are sequential, not independent) —
the vscode and app locks stay held. -/
theorem close_release_semantics (s : RuntimeState) :
    ((close noFaults s).ok = true ∧
      (close noFaults s).released = heldLocks s ∧
      heldLocks (close noFaults s).state = []) ∧
    (∀ (f : CloseFaults) (p : ProcHandle), s.server_process = some p → p.running = true →
      f.terminate_wait_raises = true → f.kill_wait_raises = true →
      (close f s).ok = false ∧ (close f s).released = [] ∧ (close f s).state = s) ∧
    (∀ (f : CloseFaults) (l : PortLock), f.terminate_wait_raises = false →
      s.host_port_lock = some l → f.release_raises l = true →
      (close f s).ok = false ∧ (close f s).released = [l] ∧
      (close f s).state.host_port_lock = some l ∧
      (close f s).state.vscode_port_lock = s.vscode_port_lock ∧
      (close f s).state.app_port_locks = s.app_port_locks) := by
  refine ⟨?_, ?_, ?_⟩
  · obtain ⟨sp, lt, lf, hl, vl, al, hp, cp, vp, ap, url, exe, img⟩ := s
    cases sp <;>
      simp [close, noFaults, closeLogsAndLocks, release_port_locks_noraise, heldLocks]
  · intro f p hsp hrun ht hk
    obtain ⟨sp, lt, lf, hl, vl, al, hp, cp, vp, ap, url, exe, img⟩ := s
    cases hsp
    simp [close, hrun, ht, hk]
  · intro f l ht hhl hrel
    obtain ⟨sp, lt, lf, hl, vl, al, hp, cp, vp, ap, url, exe, img⟩ := s
    cases hhl
    cases sp with
    | none => simp [close, closeLogsAndLocks, release_port_locks, hrel]
    | some p =>
      simp [close, ht, closeLogsAndLocks, release_port_locks, hrel]

/-- Witness for `close_release_semantics` at the concrete
`crashState`: the fault-free close releases all four locks, the
termination-raise close releases none, and a host-release raise leaves
the vscode and app locks held. -/
theorem close_release_semantics_witness :
    ((close noFaults crashState).ok = true ∧
      (close noFaults crashState).released = heldLocks crashState ∧
      heldLocks (close noFaults crashState).state = []) ∧
    ((close terminationFault crashState).ok = false ∧
      (close terminationFault crashState).released = [] ∧
      (close terminationFault crashState).state = crashState) ∧
    ((close hostReleaseFault crashState).ok = false ∧
      (close hostReleaseFault crashState).released = [1] ∧
      (close hostReleaseFault crashState).state.host_port_lock = some 1 ∧
      (close hostReleaseFault crashState).state.vscode_port_lock
        = crashState.vscode_port_lock ∧
      (close hostReleaseFault crashState).state.app_port_locks
        = crashState.app_port_locks) :=
  ⟨(close_release_semantics crashState).1,
   (close_release_semantics crashState).2.1 terminationFault
     { running := true, has_stdout := true } rfl rfl rfl rfl,
   (close_release_semantics crashState).2.2 hostReleaseFault 1 rfl rfl rfl⟩

/-- C6: each valid configured mount yields one `host:container:mode`
bind entry, the mode defaults to `rw` when omitted, any mode containing
`overlay` yields no entry (skipped, never remapped to `rw`), and the
spec's two-entry example produces a bind argument for only the rw
entry. -/
theorem build_bind_args_spec :
    (∀ (abspath : Str → Str) (p0 p1 : Str),
      bindOfParts abspath [p0, p1] =
        some (abspath p0 ++ ":".toList ++ p1 ++ ":".toList ++ "rw".toList)) ∧
    (∀ (abspath : Str → Str) (p0 p1 m : Str) (rest : List Str),
      pyContains m "overlay".toList = true →
      bindOfParts abspath (p0 :: p1 :: m :: rest) = none) ∧
    (∀ (abspath : Str → Str) (p0 p1 m : Str) (rest : List Str),
      pyContains m "overlay".toList = false →
      bindOfParts abspath (p0 :: p1 :: m :: rest) =
        some (abspath p0 ++ ":".toList ++ p1 ++ ":".toList ++ m)) ∧
    build_bind_args id (some "/h1:/c1:overlay,/h2:/c2:rw".toList) none none =
      ["/h2:/c2:rw".toList] := by
  refine ⟨?_, ?_, ?_, by decide⟩
  · intro abspath p0 p1
    simp +decide [bindOfParts]
  · intro abspath p0 p1 m rest h
    simp at h
    simp [bindOfParts, h]
  · intro abspath p0 p1 m rest h
    simp at h
    simp [bindOfParts, h]

/-- Witness for `build_bind_args_spec`: the overlay-mode and
explicit-mode rules at concrete mounts. -/
theorem build_bind_args_spec_witness :
    bindOfParts id ["/h1".toList, "/c1".toList, "overlay".toList] = none ∧
    bindOfParts id ["/h2".toList, "/c2".toList, "ro".toList] =
      some ("/h2".toList ++ ":".toList ++ "/c2".toList ++ ":".toList ++ "ro".toList) :=
  ⟨build_bind_args_spec.2.1 id "/h1".toList "/c1".toList "overlay".toList [] (by decide),
   build_bind_args_spec.2.2.1 id "/h2".toList "/c2".toList "ro".toList [] (by decide)⟩

/-- The ten environment-variable names the dual-prefix injection can
write (both prefixes over the five runtime parameters). -/
def dualPrefixKeys : List Str :=
  ["APPTAINERENV_port".toList, "SINGULARITYENV_port".toList,
   "APPTAINERENV_PYTHONUNBUFFERED".toList, "SINGULARITYENV_PYTHONUNBUFFERED".toList,
   "APPTAINERENV_VSCODE_PORT".toList, "SINGULARITYENV_VSCODE_PORT".toList,
   "APPTAINERENV_APP_PORT_1".toList, "SINGULARITYENV_APP_PORT_1".toList,
   "APPTAINERENV_APP_PORT_2".toList, "SINGULARITYENV_APP_PORT_2".toList]

/-- C7: the subprocess environment is the host environment plus each
runtime parameter (listening port, output-buffering flag, and, when
present, the vscode port and both app ports) injected under both the
`APPTAINERENV_` and `SINGULARITYENV_` prefixes with equal values; every
other variable is passed through unchanged. -/
theorem command_env_dual_injection (host_env : Str → Option Str) (cp : Int)
    (vp : Option Int) (ap : List Int) :
    (build_command_env host_env cp vp ap "APPTAINERENV_port".toList
        = some (toString cp).toList ∧
      build_command_env host_env cp vp ap "SINGULARITYENV_port".toList
        = some (toString cp).toList) ∧
    (build_command_env host_env cp vp ap "APPTAINERENV_PYTHONUNBUFFERED".toList
        = some "1".toList ∧
      build_command_env host_env cp vp ap "SINGULARITYENV_PYTHONUNBUFFERED".toList
        = some "1".toList) ∧
    (∀ v, vp = some v →
      build_command_env host_env cp vp ap "APPTAINERENV_VSCODE_PORT".toList
          = some (toString v).toList ∧
        build_command_env host_env cp vp ap "SINGULARITYENV_VSCODE_PORT".toList
          = some (toString v).toList) ∧
    (∀ a b rest, ap = a :: b :: rest →
      build_command_env host_env cp vp ap "APPTAINERENV_APP_PORT_1".toList
          = some (toString a).toList ∧
        build_command_env host_env cp vp ap "SINGULARITYENV_APP_PORT_1".toList
          = some (toString a).toList ∧
        build_command_env host_env cp vp ap "APPTAINERENV_APP_PORT_2".toList
          = some (toString b).toList ∧
        build_command_env host_env cp vp ap "SINGULARITYENV_APP_PORT_2".toList
          = some (toString b).toList) ∧
    (∀ q : Str, q ∉ dualPrefixKeys → build_command_env host_env cp vp ap q = host_env q) := by
  refine ⟨?_, ?_, ?_, ?_, ?_⟩
  · cases vp <;> rcases ap with _ | ⟨a, _ | ⟨b, rest⟩⟩ <;>
      simp +decide [build_command_env, env_updates, injectUpdates, envSet]
  · cases vp <;> rcases ap with _ | ⟨a, _ | ⟨b, rest⟩⟩ <;>
      simp +decide [build_command_env, env_updates, injectUpdates, envSet]
  · intro v hv
    subst hv
    rcases ap with _ | ⟨a, _ | ⟨b, rest⟩⟩ <;>
      simp +decide [build_command_env, env_updates, injectUpdates, envSet]
  · intro a b rest hab
    subst hab
    cases vp <;>
      simp +decide [build_command_env, env_updates, injectUpdates, envSet]
  · intro q hq
    simp [dualPrefixKeys] at hq
    obtain ⟨h1, h2, h3, h4, h5, h6, h7, h8, h9, h10⟩ := hq
    cases vp <;> rcases ap with _ | ⟨a, _ | ⟨b, rest⟩⟩ <;>
      simp [build_command_env, env_updates, injectUpdates, envSet,
        h1, h2, h3, h4, h5, h6, h7, h8, h9, h10]

/-- Witness for `command_env_dual_injection` at a concrete port set and an
empty host environment. -/
theorem command_env_dual_injection_witness :
    (build_command_env (fun _ => none) 30000 (some 40000) [50000, 55000]
          "APPTAINERENV_VSCODE_PORT".toList = some (toString (40000 : Int)).toList ∧
      build_command_env (fun _ => none) 30000 (some 40000) [50000, 55000]
          "SINGULARITYENV_VSCODE_PORT".toList = some (toString (40000 : Int)).toList) ∧
    (build_command_env (fun _ => none) 30000 (some 40000) [50000, 55000]
          "APPTAINERENV_APP_PORT_1".toList = some (toString (50000 : Int)).toList ∧
      build_command_env (fun _ => none) 30000 (some 40000) [50000, 55000]
          "SINGULARITYENV_APP_PORT_1".toList = some (toString (50000 : Int)).toList ∧
      build_command_env (fun _ => none) 30000 (some 40000) [50000, 55000]
          "APPTAINERENV_APP_PORT_2".toList = some (toString (55000 : Int)).toList ∧
      build_command_env (fun _ => none) 30000 (some 40000) [50000, 55000]
          "SINGULARITYENV_APP_PORT_2".toList = some (toString (55000 : Int)).toList) ∧
    build_command_env (fun _ => none) 30000 (some 40000) [50000, 55000] "PATH".toList
      = none :=
  ⟨(command_env_dual_injection (fun _ => none) 30000 (some 40000) [50000, 55000]).2.2.1
      40000 rfl,
   (command_env_dual_injection (fun _ => none) 30000 (some 40000) [50000, 55000]).2.2.2.1
      50000 55000 [] rfl,
   (command_env_dual_injection (fun _ => none) 30000 (some 40000) [50000, 55000]).2.2.2.2
      "PATH".toList (by decide)⟩

/-- the `releaseAppFrom` step preserves the port numbers and the URL. -/
theorem releaseAppFrom_core (raises : PortLock → Bool) (s : RuntimeState)
    (acc : List PortLock) :
    ((releaseAppFrom raises s acc).2.1).host_port = s.host_port ∧
    ((releaseAppFrom raises s acc).2.1).container_port = s.container_port ∧
    ((releaseAppFrom raises s acc).2.1).api_url = s.api_url := by
  unfold releaseAppFrom
  dsimp only
  split <;> simp

/-- the `releaseVscodeFrom` step preserves the port numbers and the
URL. -/
theorem releaseVscodeFrom_core (raises : PortLock → Bool) (s : RuntimeState)
    (acc : List PortLock) :
    ((releaseVscodeFrom raises s acc).2.1).host_port = s.host_port ∧
    ((releaseVscodeFrom raises s acc).2.1).container_port = s.container_port ∧
    ((releaseVscodeFrom raises s acc).2.1).api_url = s.api_url := by
  unfold releaseVscodeFrom
  cases s.vscode_port_lock with
  | none => exact releaseAppFrom_core raises s acc
  | some l =>
    by_cases h : raises l = true
    · simp [h]
    · simp only [h, Bool.false_eq_true, if_false, if_neg]
      exact releaseAppFrom_core raises _ _

/-- `_release_port_locks` preserves the port numbers and the URL. -/
theorem release_port_locks_core (raises : PortLock → Bool) (s : RuntimeState) :
    ((release_port_locks raises s).2.1).host_port = s.host_port ∧
    ((release_port_locks raises s).2.1).container_port = s.container_port ∧
    ((release_port_locks raises s).2.1).api_url = s.api_url := by
  unfold release_port_locks
  cases s.host_port_lock with
  | none => exact releaseVscodeFrom_core raises s []
  | some l =>
    by_cases h : raises l = true
    · simp [h]
    · simp only [h, Bool.false_eq_true, if_false, if_neg]
      exact releaseVscodeFrom_core raises _ _

/-- `close()` preserves the port numbers and the URL, for every state
and every fault schedule. -/
theorem close_core (f : CloseFaults) (s : RuntimeState) :
    ((close f s).state).host_port = s.host_port ∧
    ((close f s).state).container_port = s.container_port ∧
    ((close f s).state).api_url = s.api_url := by
  unfold close closeLogsAndLocks
  cases s.server_process with
  | none => exact release_port_locks_core f.release_raises _
  | some p =>
    by_cases h : (p.running && f.terminate_wait_raises && f.kill_wait_raises) = true
    · simp [h]
    · simp only [h, Bool.false_eq_true, if_false, if_neg]
      exact release_port_locks_core f.release_raises _

/-- C8: a successfully constructed instance has its host port equal to
its container port, its advertised URL is exactly
`local_runtime_url:port` with that port, and no later lifecycle
operation (`close`, under any fault schedule) changes the ports or the
URL. -/
theorem host_port_eq_container_port_and_url (c : InitConfig) (st : RuntimeState) (n : Nat)
    (h : initRuntime c = (.ok st, n)) :
    st.host_port = st.container_port ∧
    st.api_url = c.local_runtime_url ++ ":".toList ++ (toString st.container_port).toList ∧
    (∀ (s : RuntimeState) (f : CloseFaults),
      ((close f s).state).host_port = s.host_port ∧
      ((close f s).state).container_port = s.container_port ∧
      ((close f s).state).api_url = s.api_url) := by
  refine ⟨?_, ?_, fun s f => close_core f s⟩ <;>
  · cases hd : detect_apptainer_executable c.envGet c.which with
    | error e => simp only [initRuntime, hd] at h; exact absurd h (by simp)
    | ok exe =>
      simp only [initRuntime, hd] at h
      split at h
      · exact absurd h (by simp)
      · simp only [Prod.mk.injEq, Except.ok.injEq] at h
        obtain ⟨h1, h2⟩ := h
        subst h1
        rfl

/-- Construction inputs for the witness: override unset, `apptainer`
resolvable, a docker image configured, deterministic allocation. -/
def witnessInitConfig : InitConfig :=
  { envGet := fun _ => none,
    which := fun s => if s = "apptainer".toList then some "/usr/bin/apptainer".toList else none,
    runtime_container_image := some "docker://img".toList,
    base_container_image := none,
    local_runtime_url := "http://localhost".toList,
    alloc := fun i => ((30000 + i : Int), some i) }

/-- The state `witnessInitConfig` constructs. -/
def witnessInitState : RuntimeState :=
  { server_process := none, log_thread := false, log_file_handle := false,
    host_port_lock := some 0, vscode_port_lock := some 1,
    app_port_locks := [some 2, some 3],
    host_port := 30000, container_port := 30000,
    vscode_port := some 30001, app_ports := [30002, 30003],
    api_url := "http://localhost:30000".toList,
    apptainer_executable := "/usr/bin/apptainer".toList,
    apptainer_image := "docker://img".toList }

/-- Witness for `host_port_eq_container_port_and_url` at a concrete
construction. -/
theorem host_port_eq_container_port_and_url_witness :
    witnessInitState.host_port = witnessInitState.container_port ∧
    witnessInitState.api_url = witnessInitConfig.local_runtime_url ++ ":".toList
      ++ (toString witnessInitState.container_port).toList ∧
    (∀ (s : RuntimeState) (f : CloseFaults),
      ((close f s).state).host_port = s.host_port ∧
      ((close f s).state).container_port = s.container_port ∧
      ((close f s).state).api_url = s.api_url) :=
  host_port_eq_container_port_and_url witnessInitConfig witnessInitState 4 (by rfl)

/-- C9: executable resolution consults the override environment
variable first and returns its value when it is truthy and resolves on
the search path; otherwise it probes `apptainer` and then `singularity`
in that order, returning the resolved path; when nothing resolves it
fails with the fatal configuration error; and both construction-time
configuration errors (no executable, no image) occur with zero
`_allocate_port` calls performed. -/
theorem executable_resolution_and_early_errors :
    (∀ (envGet which : Str → Option Str) (candidate : Str),
      envGet "APPTAINER_EXECUTABLE".toList = some candidate →
      (!candidate.isEmpty && truthyOpt (which candidate)) = true →
      detect_apptainer_executable envGet which = .ok candidate) ∧
    (∀ (envGet which : Str → Option Str) (p : Str),
      overrideUsable envGet which = false →
      which "apptainer".toList = some p → p.isEmpty = false →
      detect_apptainer_executable envGet which = .ok p) ∧
    (∀ (envGet which : Str → Option Str) (p : Str),
      overrideUsable envGet which = false →
      truthyOpt (which "apptainer".toList) = false →
      which "singularity".toList = some p → p.isEmpty = false →
      detect_apptainer_executable envGet which = .ok p) ∧
    (∀ (envGet which : Str → Option Str),
      overrideUsable envGet which = false →
      truthyOpt (which "apptainer".toList) = false →
      truthyOpt (which "singularity".toList) = false →
      detect_apptainer_executable envGet which = .error .noExecutable) ∧
    (∀ (c : InitConfig) (e : InitError),
      (initRuntime c).1 = .error e → (initRuntime c).2 = 0) := by
  refine ⟨?_, ?_, ?_, ?_, ?_⟩
  · intro envGet which candidate he hu
    unfold detect_apptainer_executable
    rw [he]
    dsimp only
    rw [if_pos hu]
  · intro envGet which p hov ha hp
    have ht : truthyOpt (which "apptainer".toList) = true := by
      rw [ha]; show (!List.isEmpty p) = true; rw [hp]; rfl
    have hgoal : detectFromKnownBinaries which = .ok p := by
      unfold detectFromKnownBinaries
      rw [if_pos ht, ha]
      rfl
    unfold detect_apptainer_executable
    cases he : envGet "APPTAINER_EXECUTABLE".toList with
    | none => exact hgoal
    | some cand =>
      have hcand : (!cand.isEmpty && truthyOpt (which cand)) = false := by
        unfold overrideUsable at hov
        rw [he] at hov
        exact hov
      dsimp only
      rw [if_neg (eq_false_not_true hcand)]
      exact hgoal
  · intro envGet which p hov ha hs hp
    have ht : truthyOpt (which "singularity".toList) = true := by
      rw [hs]; show (!List.isEmpty p) = true; rw [hp]; rfl
    have hgoal : detectFromKnownBinaries which = .ok p := by
      unfold detectFromKnownBinaries
      rw [if_neg (eq_false_not_true ha), if_pos ht, hs]
      rfl
    unfold detect_apptainer_executable
    cases he : envGet "APPTAINER_EXECUTABLE".toList with
    | none => exact hgoal
    | some cand =>
      have hcand : (!cand.isEmpty && truthyOpt (which cand)) = false := by
        unfold overrideUsable at hov
        rw [he] at hov
        exact hov
      dsimp only
      rw [if_neg (eq_false_not_true hcand)]
      exact hgoal
  · intro envGet which hov ha hs
    have hgoal : detectFromKnownBinaries which = .error .noExecutable := by
      unfold detectFromKnownBinaries
      rw [if_neg (eq_false_not_true ha), if_neg (eq_false_not_true hs)]
    unfold detect_apptainer_executable
    cases he : envGet "APPTAINER_EXECUTABLE".toList with
    | none => exact hgoal
    | some cand =>
      have hcand : (!cand.isEmpty && truthyOpt (which cand)) = false := by
        unfold overrideUsable at hov
        rw [he] at hov
        exact hov
      dsimp only
      rw [if_neg (eq_false_not_true hcand)]
      exact hgoal
  · intro c e h
    cases hd : detect_apptainer_executable c.envGet c.which with
    | error e2 => simp [initRuntime, hd]
    | ok exe =>
      simp only [initRuntime, hd] at h ⊢
      split at h
      · simp_all
      · exact absurd h (by simp)

/-- Witness for `executable_resolution_and_early_errors`: a usable
override, the two probe orders, the no-executable error, and an
erroring construction that performs zero allocations. -/
theorem executable_resolution_and_early_errors_witness :
    detect_apptainer_executable (fun _ => some "mytool".toList) (fun _ => some "/x".toList)
        = .ok "mytool".toList ∧
    detect_apptainer_executable (fun _ => none)
        (fun s => if s = "apptainer".toList then some "/usr/bin/apptainer".toList else none)
        = .ok "/usr/bin/apptainer".toList ∧
    detect_apptainer_executable (fun _ => none)
        (fun s => if s = "singularity".toList then some "/usr/bin/singularity".toList else none)
        = .ok "/usr/bin/singularity".toList ∧
    detect_apptainer_executable (fun _ => none) (fun _ => none) = .error .noExecutable ∧
    (initRuntime
        { envGet := fun _ => none, which := fun _ => none,
          runtime_container_image := some "docker://img".toList,
          base_container_image := none,
          local_runtime_url := "http://localhost".toList,
          alloc := fun i => ((30000 + i : Int), some i) }).2 = 0 :=
  ⟨executable_resolution_and_early_errors.1 (fun _ => some "mytool".toList)
      (fun _ => some "/x".toList) "mytool".toList rfl (by decide),
   executable_resolution_and_early_errors.2.1 (fun _ => none)
      (fun s => if s = "apptainer".toList then some "/usr/bin/apptainer".toList else none)
      "/usr/bin/apptainer".toList (by decide) (by decide) (by decide),
   executable_resolution_and_early_errors.2.2.1 (fun _ => none)
      (fun s => if s = "singularity".toList then some "/usr/bin/singularity".toList else none)
      "/usr/bin/singularity".toList (by decide) (by decide) (by decide) (by decide),
   executable_resolution_and_early_errors.2.2.2.1 (fun _ => none) (fun _ => none)
      rfl rfl rfl,
   executable_resolution_and_early_errors.2.2.2.2
      { envGet := fun _ => none, which := fun _ => none,
        runtime_container_image := some "docker://img".toList,
        base_container_image := none,
        local_runtime_url := "http://localhost".toList,
        alloc := fun i => ((30000 + i : Int), some i) }
      .noExecutable (by rfl)⟩

end Apptainer
